import Mathlib

/-!
# Verification of the launch-configuration builder and compilation-option marshaller

A shallow embedding of `src/cuda/api/launch_config_builder.hpp` and
`src/cuda/rtc/compilation_options.hpp` of the cuda-api-wrappers repository,
together with theorems settling the specification claims about them.

Modelling conventions:
* Dimension values (`grid::dimension_t`, `grid::block_dimension_t`,
  `grid::overall_dimension_t`) and byte counts (`memory::shared::size_t`)
  are modelled as `Nat`.  Their concrete widths are defined outside the
  given file set, and the source documents overflow as a caller obligation
  (launch_config_builder.hpp, comment in `div_rounding_up`).
* C++ exceptions (`std::logic_error` / `std::invalid_argument`) become
  `Except BuilderError` results; the message strings are kept verbatim.
* The embedding follows the validating configuration of the source
  (`NDEBUG` not defined), in which the `validate_*` members exist and
  `get_composite_dimensions` re-validates the resolved dimensions.
* The kernel and device collaborators (`kernel_t`, `device_t`) live outside
  the given file set and are modelled from the spec as records of the
  queries the builder performs on them.
-/

/-- A triple of unsigned integers: models `dim3`-like dimension triples
(`grid::dimensions_t`, `grid::block_dimensions_t`, `grid::overall_dimensions_t`). -/
structure Dim3 where
  x : Nat
  y : Nat
  z : Nat
deriving DecidableEq, Repr

/-- Axis-wise product, as in `grid * block` producing overall dimensions. -/
def Dim3.mul (a b : Dim3) : Dim3 := ⟨a.x * b.x, a.y * b.y, a.z * b.z⟩

instance : Mul Dim3 := ⟨Dim3.mul⟩

/-- `volume()`: the product of the three components. -/
def Dim3.volume (d : Dim3) : Nat := d.x * d.y * d.z

/-- `grid::detail_::div_rounding_up` (scalar form):
`quotient := dividend / divisor`, returned as-is when exact and
incremented by one otherwise. -/
def div_rounding_up (dividend divisor : Nat) : Nat :=
  let quotient := dividend / divisor
  if divisor * quotient == dividend then quotient else quotient + 1

/-- `grid::detail_::div_rounding_up` on triples: applied per axis. -/
def div_rounding_up3 (overall_dims block_dims : Dim3) : Dim3 :=
  ⟨div_rounding_up overall_dims.x block_dims.x,
   div_rounding_up overall_dims.y block_dims.y,
   div_rounding_up overall_dims.z block_dims.z⟩

/-- `grid::composite_dimensions_t`: a grid paired with a block shape. -/
structure CompositeDims where
  block : Dim3
  grid : Dim3
deriving DecidableEq, Repr

/-- Modelled from the spec: the program (kernel) collaborator, external to the
given file set.  Per the spec's program-collaborator contract it exposes a
maximum group size, answers the maximum number of concurrently resident
groups per multiprocessor for a group volume and a scratch-memory byte
count, answers an occupancy-optimal (block, grid) pair — for either a fixed
scratch size or a sizing function — and can check a scratch size against
its limits. -/
structure KernelModel where
  maximumThreadsPerBlock : Nat
  maxActiveBlocksPerMultiprocessor : Nat → Nat → Nat
  minGridParamsForMaxOccupancyFixed : Nat → CompositeDims
  minGridParamsForMaxOccupancyFn : (Nat → Nat) → CompositeDims
  sharedMemOk : Nat → Bool

/-- Modelled from the spec: the device collaborator, external to the given
file set.  Per the spec's device-collaborator contract it exposes a maximum
group size and a multiprocessor count, and can check a scratch size against
its limits. -/
structure DeviceModel where
  maximumThreadsPerBlock : Nat
  multiprocessorCount : Nat
  sharedMemOk : Nat → Bool

/-- The two exception kinds thrown by the sources:
`std::logic_error` and `std::invalid_argument`, with their messages. -/
inductive BuilderError where
  | logicError (msg : String)
  | invalidArgument (msg : String)
deriving DecidableEq, Repr

/-- The anonymous struct `dimensions_` of `launch_config_builder_t`:
the partial geometry specification. -/
structure GeometrySpec where
  block : Option Dim3
  grid : Option Dim3
  overall : Option Dim3
deriving DecidableEq, Repr

/-- The state of `launch_config_builder_t`. -/
structure LaunchConfigBuilder where
  dimensions_ : GeometrySpec
  thread_block_cooperation : Bool
  dynamic_shared_memory_size_determiner_ : Option (Nat → Nat)
  dynamic_shared_memory_size_ : Nat
  kernel_ : Option KernelModel
  device_ : Option DeviceModel
  saturate_with_active_blocks_ : Bool
  use_min_params_for_max_occupancy_ : Bool

/-- `cuda::launch_config_builder()`: the default-constructed builder. -/
def launch_config_builder : LaunchConfigBuilder :=
  { dimensions_ := ⟨none, none, none⟩
    thread_block_cooperation := false
    dynamic_shared_memory_size_determiner_ := none
    dynamic_shared_memory_size_ := 0
    kernel_ := none
    device_ := none
    saturate_with_active_blocks_ := false
    use_min_params_for_max_occupancy_ := false }

/-- `launch_configuration_t` (defined in `launch_configuration.hpp`, outside
the given file set).  Modelled from the spec: complete block and grid
dimensions, resolved scratch-memory byte count, cooperation flag, and
"optionally the overall dimensions".  `build()` in the source constructs it
from a `composite_dimensions_t` (which carries block and grid only), the
scratch size and the cooperation flag, so `build()` never populates
`overall`. -/
structure LaunchConfiguration where
  block : Dim3
  grid : Dim3
  dynamic_shared_memory_size : Nat
  block_cooperation : Bool
  overall : Option Dim3
deriving DecidableEq, Repr

namespace LaunchConfigBuilder

/-- `get_dynamic_shared_memory_size`: the determiner applied to the block
volume when one is set, the fixed byte count otherwise. -/
def get_dynamic_shared_memory_size (s : LaunchConfigBuilder) (block_dims : Dim3) : Nat :=
  match s.dynamic_shared_memory_size_determiner_ with
  | none => s.dynamic_shared_memory_size_
  | some determiner => determiner block_dims.volume

/-- Modelled from the spec: `detail_::validate_block_dimensions` (defined
outside the given file set) — "rejects a volume of 0". -/
def validate_block_dims_value (dims : Dim3) : Except BuilderError Unit :=
  if dims.volume = 0 then
    .error (.invalidArgument "block dimensions with zero volume")
  else .ok ()

/-- Modelled from the spec: `detail_::validate_grid_dimensions` (defined
outside the given file set) — "rejects 0-valued axes". -/
def validate_grid_dims_value (dims : Dim3) : Except BuilderError Unit :=
  if dims.volume = 0 then
    .error (.invalidArgument "grid dimensions with zero volume")
  else .ok ()

/-- `detail_::validate_all_dimension_compatibility`:
fails unless `grid * block == overall` axis-wise. -/
def validate_all_dimension_compatibility (block grid overall : Dim3) :
    Except BuilderError Unit :=
  if grid * block ≠ overall then
    .error (.invalidArgument "specified block, grid and overall dimensions do not agree")
  else .ok ()

/-- The static overload `validate_block_dimension_compatibility(kernel_ptr, dims)`:
no-op on a null kernel; otherwise modelled from the spec — "rejects a volume
exceeding that bound's maximum group size". -/
def validate_block_dimension_compatibility_kernel
    (kernel_ptr : Option KernelModel) (block_dims : Dim3) : Except BuilderError Unit :=
  match kernel_ptr with
  | none => .ok ()
  | some k =>
    if block_dims.volume > k.maximumThreadsPerBlock then
      .error (.invalidArgument "block dimensions exceed the maximum supported by the kernel")
    else .ok ()

/-- The static overload `validate_block_dimension_compatibility(maybe_device_id, dims)`:
no-op when no device is bound; otherwise modelled from the spec — rejects a
volume exceeding the device's maximum group size. -/
def validate_block_dimension_compatibility_device
    (maybe_device : Option DeviceModel) (block_dims : Dim3) : Except BuilderError Unit :=
  match maybe_device with
  | none => .ok ()
  | some d =>
    if block_dims.volume > d.maximumThreadsPerBlock then
      .error (.invalidArgument "block dimensions exceed the maximum supported by the device")
    else .ok ()

/-- The static overload `validate_compatibility(kernel_ptr, shared_mem_size)`:
no-op on a null kernel, otherwise the kernel's scratch-size check
(modelled from the spec). -/
def validate_compatibility_kernel
    (kernel_ptr : Option KernelModel) (shared_mem_size : Nat) : Except BuilderError Unit :=
  match kernel_ptr with
  | none => .ok ()
  | some k =>
    if k.sharedMemOk shared_mem_size then .ok ()
    else .error (.invalidArgument "shared memory size exceeds the maximum supported by the kernel")

/-- The static overload `validate_compatibility(maybe_device_id, shared_mem_size)`:
no-op when no device is bound, otherwise the device's scratch-size check
(modelled from the spec). -/
def validate_compatibility_device
    (maybe_device : Option DeviceModel) (shared_mem_size : Nat) : Except BuilderError Unit :=
  match maybe_device with
  | none => .ok ()
  | some d =>
    if d.sharedMemOk shared_mem_size then .ok ()
    else .error (.invalidArgument "shared memory size exceeds the maximum supported by the device")

/-- `validate_dynamic_shared_memory_size`. -/
def validate_dynamic_shared_memory_size (s : LaunchConfigBuilder) (size : Nat) :
    Except BuilderError Unit := do
  validate_compatibility_kernel s.kernel_ size
  validate_compatibility_device s.device_ size

/-- `validate_block_dimensions`. -/
def validate_block_dimensions (s : LaunchConfigBuilder) (block_dims : Dim3) :
    Except BuilderError Unit := do
  validate_block_dims_value block_dims
  match s.dimensions_.grid, s.dimensions_.overall with
  | some g, some o => validate_all_dimension_compatibility block_dims g o
  | _, _ => pure ()
  validate_block_dimension_compatibility_kernel s.kernel_ block_dims
  validate_block_dimension_compatibility_device s.device_ block_dims

/-- `validate_grid_dimensions`. -/
def validate_grid_dimensions (s : LaunchConfigBuilder) (grid_dims : Dim3) :
    Except BuilderError Unit := do
  validate_grid_dims_value grid_dims
  match s.dimensions_.block, s.dimensions_.overall with
  | some b, some o => validate_all_dimension_compatibility b grid_dims o
  | _, _ => pure ()

/-- `validate_overall_dimensions`: when block and grid are both set, the new
overall dimensions must equal `grid * block` axis-wise. -/
def validate_overall_dimensions (s : LaunchConfigBuilder) (overall_dims : Dim3) :
    Except BuilderError Unit :=
  match s.dimensions_.block, s.dimensions_.grid with
  | some b, some g =>
    if g * b ≠ overall_dims then
      .error (.invalidArgument
        "specified overall dimensions conflict with the already-specified block and grid dimensions")
    else .ok ()
  | _, _ => .ok ()

/-- `get_unvalidated_composite_dimensions` (named `get_composite_dimensions`
when `NDEBUG` is defined): the geometry-resolution core. -/
def get_unvalidated_composite_dimensions (s : LaunchConfigBuilder) :
    Except BuilderError CompositeDims :=
  if s.saturate_with_active_blocks_ then
    if s.use_min_params_for_max_occupancy_ then
      .error (.logicError
        "Cannot both use the minimum grid parameters for achieving maximum occupancy, _and_ saturate the grid with fixed-size cubs.")
    else
      match s.kernel_ with
      | none => .error (.logicError
          "A kernel must be set to determine how many blocks are required to saturate the device")
      | some k =>
        match s.dimensions_.block with
        | none => .error (.logicError
            "The block dimensions must be known to determine how many of them one needs for saturating a device")
        | some b =>
          if s.dimensions_.grid.isSome || s.dimensions_.overall.isSome then
            .error (.logicError
              "Conflicting specifications: Grid or overall dimensions specified, but requested to saturate kernels with active blocks")
          else
            let dshmem_size := s.get_dynamic_shared_memory_size b
            let num_block_threads := b.volume
            let blocks_per_multiprocessor :=
              k.maxActiveBlocksPerMultiprocessor num_block_threads dshmem_size
            let num_multiprocessors :=
              match s.device_ with
              | some d => d.multiprocessorCount
              | none => 0
            .ok { block := b, grid := ⟨blocks_per_multiprocessor * num_multiprocessors, 1, 1⟩ }
  else if s.use_min_params_for_max_occupancy_ then
    match s.kernel_ with
    | none => .error (.logicError
        "A kernel must be set to determine the minimum grid parameter sfor m")
    | some k =>
      if s.dimensions_.block.isSome || s.dimensions_.grid.isSome
          || s.dimensions_.overall.isSome then
        .error (.logicError
          "Conflicting specifications: Grid or overall dimensions specified, but requested to saturate kernels with active blocks")
      else
        let composite_dims :=
          match s.dynamic_shared_memory_size_determiner_ with
          | some determiner => k.minGridParamsForMaxOccupancyFn determiner
          | none => k.minGridParamsForMaxOccupancyFixed s.dynamic_shared_memory_size_
        .ok { block := composite_dims.block, grid := composite_dims.grid }
  else
    match s.dimensions_.block, s.dimensions_.grid, s.dimensions_.overall with
    | some b, _, some o =>
      .ok { block := b, grid := div_rounding_up3 o b }
    | none, some g, some o =>
      .ok { block := div_rounding_up3 o g, grid := g }
    | some b, some g, none =>
      .ok { block := b, grid := g }
    | none, none, _ =>
      .error (.logicError "Neither block nor grid dimensions have been specified")
    | none, some _, none =>
      .error (.logicError
        "Attempt to obtain the composite grid dimensions, while the grid dimensions have only bee specified in terms of blocks, not threads, with no block dimensions specified")
    | some _, none, none =>
      .error (.logicError
        "Only block dimensions have been specified - cannot resolve launch grid dimensions")

/-- `validate_composite_dimensions`. -/
def validate_composite_dimensions (s : LaunchConfigBuilder)
    (composite_dims : CompositeDims) : Except BuilderError Unit := do
  validate_block_dimension_compatibility_kernel s.kernel_ composite_dims.block
  validate_block_dimension_compatibility_device s.device_ composite_dims.block
  validate_block_dimension_compatibility_device s.device_ composite_dims.grid

/-- `get_composite_dimensions` in the validating (`NDEBUG` undefined)
configuration: resolve, then re-validate. -/
def get_composite_dimensions (s : LaunchConfigBuilder) :
    Except BuilderError CompositeDims := do
  let result ← s.get_unvalidated_composite_dimensions
  s.validate_composite_dimensions result
  pure result

/-- `build()`: resolve the composite dimensions, evaluate the scratch-memory
size at the resolved block, and package the launch configuration. -/
def build (s : LaunchConfigBuilder) : Except BuilderError LaunchConfiguration := do
  let composite_dims ← s.get_composite_dimensions
  let dynamic_shmem_size := s.get_dynamic_shared_memory_size composite_dims.block
  pure { block := composite_dims.block
         grid := composite_dims.grid
         dynamic_shared_memory_size := dynamic_shmem_size
         block_cooperation := s.thread_block_cooperation
         overall := none }

/-- `resolve_dimensions()`: write the resolved block and grid back into the
builder, filling `overall` with `grid * block` when it was unset. -/
def resolve_dimensions (s : LaunchConfigBuilder) :
    Except BuilderError LaunchConfigBuilder := do
  let cd ← s.get_composite_dimensions
  pure { s with dimensions_ :=
          { block := some cd.block
            grid := some cd.grid
            overall :=
              if s.dimensions_.overall.isNone then some (cd.grid * cd.block)
              else s.dimensions_.overall } }

/-- The mutator `dimensions(composite_dims)`. -/
def dimensions (s : LaunchConfigBuilder) (composite_dims : CompositeDims) :
    Except BuilderError LaunchConfigBuilder := do
  s.validate_composite_dimensions composite_dims
  pure { s with dimensions_ :=
          { overall := none
            grid := some composite_dims.grid
            block := some composite_dims.block } }

/-- The mutator `block_dimensions(dims)`: validate, store the block, and
drop a previously derived `overall` when a grid is already set. -/
def block_dimensions (s : LaunchConfigBuilder) (dims : Dim3) :
    Except BuilderError LaunchConfigBuilder := do
  s.validate_block_dimensions dims
  pure { s with dimensions_ :=
          { s.dimensions_ with
            block := some dims
            overall := if s.dimensions_.grid.isSome then none else s.dimensions_.overall } }

/-- The mutator `use_maximum_linear_block()`. -/
def use_maximum_linear_block (s : LaunchConfigBuilder) :
    Except BuilderError LaunchConfigBuilder := do
  let max_size ←
    match s.kernel_ with
    | some k => pure k.maximumThreadsPerBlock
    | none =>
      match s.device_ with
      | some d => pure d.maximumThreadsPerBlock
      | none => .error (.logicError
          "Request to use the maximum-size linear block, with no device or kernel specified")
  let block_dims : Dim3 := ⟨max_size, 1, 1⟩
  pure { s with dimensions_ :=
          { s.dimensions_ with
            overall :=
              if s.dimensions_.grid.isSome && s.dimensions_.overall.isSome then none
              else s.dimensions_.overall
            block := some block_dims } }

/-- The mutator `grid_dimensions(dims)`: validate, drop a previously derived
`overall` when a block is already set, store the grid, and leave saturation
mode. -/
def grid_dimensions (s : LaunchConfigBuilder) (dims : Dim3) :
    Except BuilderError LaunchConfigBuilder := do
  s.validate_grid_dimensions dims
  pure { s with
          dimensions_ :=
            { s.dimensions_ with
              overall := if s.dimensions_.block.isSome then none else s.dimensions_.overall
              grid := some dims }
          saturate_with_active_blocks_ := false }

/-- The mutator `overall_dimensions(dims)`: validate against an
already-present block and grid, store, and leave saturation mode. -/
def overall_dimensions (s : LaunchConfigBuilder) (dims : Dim3) :
    Except BuilderError LaunchConfigBuilder := do
  s.validate_overall_dimensions dims
  pure { s with
          dimensions_ := { s.dimensions_ with overall := some dims }
          saturate_with_active_blocks_ := false }

/-- The mutator `block_cooperation(cooperation)`. -/
def block_cooperation (s : LaunchConfigBuilder) (cooperation : Bool) :
    LaunchConfigBuilder :=
  { s with thread_block_cooperation := cooperation }

/-- The mutator `dynamic_shared_memory_size(shared_mem_size_determiner)`:
install the sizing function; the fixed byte count is left untouched (the
determiner takes precedence whenever it is non-null). -/
def dynamic_shared_memory_size_fn (s : LaunchConfigBuilder)
    (shared_mem_size_determiner : Nat → Nat) : LaunchConfigBuilder :=
  { s with dynamic_shared_memory_size_determiner_ := some shared_mem_size_determiner }

/-- The mutator `dynamic_shared_memory_size(size)`: validate, store the
fixed byte count, and null the sizing function. -/
def dynamic_shared_memory_size_fixed (s : LaunchConfigBuilder) (size : Nat) :
    Except BuilderError LaunchConfigBuilder := do
  s.validate_dynamic_shared_memory_size size
  pure { s with
          dynamic_shared_memory_size_ := size
          dynamic_shared_memory_size_determiner_ := none }

/-- `no_dynamic_shared_memory()`. -/
def no_dynamic_shared_memory (s : LaunchConfigBuilder) :
    Except BuilderError LaunchConfigBuilder :=
  s.dynamic_shared_memory_size_fixed 0

/-- `validate_kernel(kernel_ptr)`. -/
def validate_kernel (s : LaunchConfigBuilder) (kernel_ptr : Option KernelModel) :
    Except BuilderError Unit := do
  if s.dimensions_.block.isSome
      || (s.dimensions_.grid.isSome && s.dimensions_.overall.isSome) then
    let block_dims ←
      match s.dimensions_.block with
      | some b => pure b
      | none => do
        let cd ← s.get_composite_dimensions
        pure cd.block
    validate_block_dimension_compatibility_kernel kernel_ptr block_dims
  validate_compatibility_kernel kernel_ptr s.dynamic_shared_memory_size_

/-- The mutator `kernel(wrapped_kernel_ptr)`. -/
def kernel (s : LaunchConfigBuilder) (wrapped_kernel_ptr : Option KernelModel) :
    Except BuilderError LaunchConfigBuilder := do
  s.validate_kernel wrapped_kernel_ptr
  pure { s with kernel_ := wrapped_kernel_ptr }

/-- The mutators `kernel_independent()` / `no_kernel()`. -/
def no_kernel (s : LaunchConfigBuilder) : LaunchConfigBuilder :=
  { s with kernel_ := none }

/-- The mutator `saturate_with_active_blocks()`: requires a bound kernel and
set block dimensions; clears grid and overall, leaves the competing
derivation mode, and enters saturation mode. -/
def saturate_with_active_blocks (s : LaunchConfigBuilder) :
    Except BuilderError LaunchConfigBuilder := do
  if s.kernel_.isNone then
    .error (.logicError
      "A kernel must be set to determine how many blocks are required to saturate the device")
  else if s.dimensions_.block.isNone then
    .error (.logicError
      "The block dimensions must be known to determine how many of them one needs for saturating a device")
  else
    pure { s with
            dimensions_ := { s.dimensions_ with grid := none, overall := none }
            use_min_params_for_max_occupancy_ := false
            saturate_with_active_blocks_ := true }

/-- The mutator `min_params_for_max_occupancy()`: requires a bound kernel;
clears block, grid and overall, leaves saturation mode, and enters
minimum-parameters mode. -/
def min_params_for_max_occupancy (s : LaunchConfigBuilder) :
    Except BuilderError LaunchConfigBuilder := do
  if s.kernel_.isNone then
    .error (.logicError
      "A kernel must be set to determine how many blocks are required to saturate the device")
  else
    pure { s with
            dimensions_ := ⟨none, none, none⟩
            use_min_params_for_max_occupancy_ := true
            saturate_with_active_blocks_ := false }

end LaunchConfigBuilder

/-! ## The option marshaller (`src/cuda/rtc/compilation_options.hpp`) -/

/-- `rtc::cpp_dialect_t`. -/
inductive CppDialect where
  | cpp03
  | cpp11
  | cpp14
  | cpp17
deriving DecidableEq, Repr

/-- `rtc::detail_::cpp_dialect_names`. -/
def cpp_dialect_names (dialect : CppDialect) : String :=
  match dialect with
  | .cpp03 => "c++03"
  | .cpp11 => "c++11"
  | .cpp14 => "c++14"
  | .cpp17 => "c++17"

/-- `rtc::detail_::cpp_dialect_from_name`: scan the known dialect names in
order; throw `std::invalid_argument` naming the argument when none
matches. -/
def cpp_dialect_from_name (dialect_name : String) : Except BuilderError CppDialect :=
  if dialect_name = cpp_dialect_names .cpp03 then .ok .cpp03
  else if dialect_name = cpp_dialect_names .cpp11 then .ok .cpp11
  else if dialect_name = cpp_dialect_names .cpp14 then .ok .cpp14
  else if dialect_name = cpp_dialect_names .cpp17 then .ok .cpp17
  else .error (.invalidArgument ("No C++ dialect named \"" ++ dialect_name ++ "\""))

/-- `rtc::error::handling_method_t`. -/
inductive HandlingMethod where
  | raiseError
  | suppress
  | warn
deriving DecidableEq, Repr

/-- `rtc::error::detail_::option_name_part`. -/
def option_name_part (method : HandlingMethod) : String :=
  match method with
  | .raiseError => "error"
  | .suppress => "suppress"
  | .warn => "warn"

/-- `rtc::compilation_options_t`.  Unordered containers are modelled as
lists (the claims settled here do not depend on iteration order); compute
capabilities are modelled by their combined number (`as_combined_number`). -/
structure CompilationOptions where
  targets_ : List Nat
  generate_relocatable_code : Bool
  compile_extensible_whole_program : Bool
  debug : Bool
  optimize_device_code_in_debug_mode : Bool
  generate_line_info : Bool
  support_128bit_integers : Bool
  indicate_function_inlining : Bool
  compiler_self_identification : Bool
  maximum_register_count : Option Nat
  flush_denormal_floats_to_zero : Bool
  use_precise_square_root : Bool
  use_precise_division : Bool
  use_fused_multiply_add : Bool
  use_fast_math : Bool
  link_time_optimization : Bool
  source_dirs_in_include_path : Bool
  extra_device_vectorization : Bool
  specify_language_dialect : Bool
  language_dialect : CppDialect
  no_value_defines : List String
  undefines : List String
  valued_defines : List (String × String)
  disable_warnings : Bool
  assume_restrict : Bool
  default_execution_space_is_device : Bool
  display_error_numbers : Bool
  ptxas : String
  additional_include_paths : List String
  preinclude_files : List String
  builtin_move_and_forward : Bool
  increase_stack_limit_to_max : Bool
  builtin_initializer_list : Bool
  extra_options : List String
  error_handling_overrides : List (Nat × HandlingMethod)

/-- The default-constructed `compilation_options_t`, with each field's
in-class initializer. -/
def compilationOptionsDefault : CompilationOptions :=
  { targets_ := []
    generate_relocatable_code := false
    compile_extensible_whole_program := false
    debug := false
    optimize_device_code_in_debug_mode := false
    generate_line_info := false
    support_128bit_integers := false
    indicate_function_inlining := false
    compiler_self_identification := false
    maximum_register_count := none
    flush_denormal_floats_to_zero := false
    use_precise_square_root := true
    use_precise_division := true
    use_fused_multiply_add := true
    use_fast_math := false
    link_time_optimization := false
    source_dirs_in_include_path := true
    extra_device_vectorization := false
    specify_language_dialect := false
    language_dialect := .cpp03
    no_value_defines := []
    undefines := []
    valued_defines := []
    disable_warnings := false
    assume_restrict := false
    default_execution_space_is_device := false
    display_error_numbers := true
    ptxas := ""
    additional_include_paths := []
    preinclude_files := []
    builtin_move_and_forward := true
    increase_stack_limit_to_max := true
    builtin_initializer_list := true
    extra_options := []
    error_handling_overrides := [] }

namespace CompilationOptions

/-- `add_target(compute_capability)`: despite its documentation, it first
clears the target set and then inserts the one capability. -/
def add_target (opts : CompilationOptions) (compute_capability : Nat) :
    CompilationOptions :=
  { opts with targets_ := [compute_capability] }

/-- `set_target(compute_capability)`: clear, then `add_target`. -/
def set_target (opts : CompilationOptions) (compute_capability : Nat) :
    CompilationOptions :=
  add_target { opts with targets_ := [] } compute_capability

/-- `set_language_dialect(cpp_dialect_t)`. -/
def set_language_dialect_value (opts : CompilationOptions) (dialect : CppDialect) :
    CompilationOptions :=
  { opts with specify_language_dialect := true, language_dialect := dialect }

/-- `clear_language_dialect()`. -/
def clear_language_dialect (opts : CompilationOptions) : CompilationOptions :=
  { opts with specify_language_dialect := false }

/-- `set_language_dialect(const std::string&)` (and the `const char*`
overload it forwards to): an empty name clears the dialect, any other name
is looked up with `cpp_dialect_from_name`. -/
def set_language_dialect (opts : CompilationOptions) (dialect_name : String) :
    Except BuilderError CompilationOptions :=
  if dialect_name = "" then .ok (opts.clear_language_dialect)
  else do
    let d ← cpp_dialect_from_name dialect_name
    pure (opts.set_language_dialect_value d)

end CompilationOptions

/-- A helper for `process`: the token list a boolean toggle contributes. -/
def optIf (cond : Bool) (token : String) : List String :=
  if cond then [token] else []

/-- `rtc::process`, first part: the simple boolean toggles emitted before
the fast-math block, in the source's declaration order. -/
def simple_toggle_tokens (opts : CompilationOptions) : List String :=
  optIf opts.generate_relocatable_code "--relocatable-device-code=true"
  ++ optIf opts.compile_extensible_whole_program "--extensible-whole-program=true"
  ++ optIf opts.debug "--device-debug"
  ++ optIf opts.generate_line_info "--generate-line-info"
  ++ optIf opts.support_128bit_integers "--device-int128"
  ++ optIf opts.indicate_function_inlining "--optimization-info=inline"
  ++ optIf opts.compiler_self_identification "--version-ident=true"
  ++ optIf (!opts.builtin_initializer_list) "--builtin-initializer-list=false"
  ++ optIf (!opts.source_dirs_in_include_path) "--no-source-include "
  ++ optIf opts.extra_device_vectorization "--extra-device-vectorization"
  ++ optIf opts.disable_warnings "--disable-warnings"
  ++ optIf opts.assume_restrict "--restrict"
  ++ optIf opts.default_execution_space_is_device "--device-as-default-execution-space"
  ++ optIf (!opts.display_error_numbers) "--no-display-error-number"
  ++ optIf (!opts.builtin_move_and_forward) "--builtin-move-forward=false"
  ++ optIf (!opts.increase_stack_limit_to_max) "--modify-stack-limit=false"
  ++ optIf opts.link_time_optimization "--dlink-time-opt"

/-- `rtc::process`, second part: the mutually exclusive fast-math block —
either the single `--use_fast_math` token, or the individually subsumed
toggles. -/
def fast_math_tokens (opts : CompilationOptions) : List String :=
  if opts.use_fast_math then ["--use_fast_math"]
  else
    optIf opts.flush_denormal_floats_to_zero "--ftz"
    ++ optIf (!opts.use_precise_square_root) "--prec-sqrt=false"
    ++ optIf (!opts.use_precise_division) "--prec-div=false"
    ++ optIf (!opts.use_fused_multiply_add) "--fmad=false"

/-- `rtc::process`, third part: everything emitted after the fast-math
block — remaining scalar options, then the multi-valued option groups in
their containers' order.  The `CUDA_VERSION >= 11000` branch is taken for
the target-architecture prefix. -/
def remaining_option_tokens (opts : CompilationOptions) : List String :=
  optIf opts.optimize_device_code_in_debug_mode "--dopt=on"
  ++ optIf (opts.ptxas ≠ "") ("--ptxas-options=" ++ opts.ptxas)
  ++ optIf opts.specify_language_dialect ("--std=" ++ cpp_dialect_names opts.language_dialect)
  ++ (match opts.maximum_register_count with
      | some n => ["--maxrregcount" ++ toString n]
      | none => [])
  ++ opts.targets_.map (fun target => "--gpu-architecture=sm_" ++ toString target)
  ++ opts.undefines.map (fun d => "-U" ++ d)
  ++ opts.no_value_defines.map (fun d => "-D" ++ d)
  ++ opts.valued_defines.map (fun d => "-D" ++ d.1 ++ "=" ++ d.2)
  ++ opts.additional_include_paths.map (fun path => "--include-path=" ++ path)
  ++ opts.preinclude_files.map (fun f => "--pre-include=" ++ f)
  ++ opts.error_handling_overrides.map
      (fun ov => "--diag-" ++ option_name_part ov.2 ++ "=" ++ toString ov.1)
  ++ opts.extra_options

/-- `rtc::process`: the marshalled token sequence, in the source's emission
order.  Each `marshalled << opt_start << ...` group becomes one token; the
delimiter mechanics of `opt_start_t` affect only how tokens are joined when
rendering, not the token sequence itself. -/
def process (opts : CompilationOptions) : List String :=
  simple_toggle_tokens opts ++ fast_math_tokens opts ++ remaining_option_tokens opts

/-! ## Call sequences -/

/-- One public mutator call on the launch-configuration builder (the scalar
and aliased overloads all forward to these). -/
inductive Mutation where
  | dimensions (composite_dims : CompositeDims)
  | blockDimensions (dims : Dim3)
  | useMaximumLinearBlock
  | gridDimensions (dims : Dim3)
  | overallDimensions (dims : Dim3)
  | blockCooperation (cooperation : Bool)
  | dynamicSharedMemoryFn (determiner : Nat → Nat)
  | dynamicSharedMemoryFixed (size : Nat)
  | setKernel (kernel_ptr : Option KernelModel)
  | saturateWithActiveBlocks
  | minParamsForMaxOccupancy
  | resolveDimensions

/-- Run one mutator call; a thrown exception leaves the builder unchanged
(every mutator validates before mutating). -/
def applyMutation (s : LaunchConfigBuilder) (m : Mutation) : LaunchConfigBuilder :=
  match m with
  | .dimensions cd => (s.dimensions cd).toOption.getD s
  | .blockDimensions d => (s.block_dimensions d).toOption.getD s
  | .useMaximumLinearBlock => s.use_maximum_linear_block.toOption.getD s
  | .gridDimensions d => (s.grid_dimensions d).toOption.getD s
  | .overallDimensions d => (s.overall_dimensions d).toOption.getD s
  | .blockCooperation c => s.block_cooperation c
  | .dynamicSharedMemoryFn f => s.dynamic_shared_memory_size_fn f
  | .dynamicSharedMemoryFixed n => (s.dynamic_shared_memory_size_fixed n).toOption.getD s
  | .setKernel k => (s.kernel k).toOption.getD s
  | .saturateWithActiveBlocks => s.saturate_with_active_blocks.toOption.getD s
  | .minParamsForMaxOccupancy => s.min_params_for_max_occupancy.toOption.getD s
  | .resolveDimensions => s.resolve_dimensions.toOption.getD s

/-- Run a sequence of mutator calls, left to right. -/
def applyMutations (s : LaunchConfigBuilder) (ms : List Mutation) : LaunchConfigBuilder :=
  ms.foldl applyMutation s

/-- One call of the compilation-target shorthands. -/
inductive TargetCall where
  | add (compute_capability : Nat)
  | set (compute_capability : Nat)

/-- The capability argument of a target call. -/
def TargetCall.capability : TargetCall → Nat
  | .add c => c
  | .set c => c

/-- Run one target call. -/
def applyTargetCall (opts : CompilationOptions) (c : TargetCall) : CompilationOptions :=
  match c with
  | .add cc => opts.add_target cc
  | .set cc => opts.set_target cc

/-- Run a sequence of target calls, left to right. -/
def applyTargetCalls (opts : CompilationOptions) (cs : List TargetCall) :
    CompilationOptions :=
  cs.foldl applyTargetCall opts

/-! ## Spec-side definitions

These state properties in the words of the specification, for comparison
with the source-derived definitions above. -/

/-- The spec's wording of ceiling division: `total/step`, rounded up by one
when the division is inexact. -/
def ceil_div_spec (total step : Nat) : Nat :=
  if step ∣ total then total / step else total / step + 1

/-- How many of the three geometry fields are present. -/
def numGeometrySet (s : LaunchConfigBuilder) : Nat :=
  (if s.dimensions_.block.isSome then 1 else 0)
  + (if s.dimensions_.grid.isSome then 1 else 0)
  + (if s.dimensions_.overall.isSome then 1 else 0)

/-- The message thrown when neither block nor grid dimensions are set. -/
def neitherBlockNorGridMsg : String :=
  "Neither block nor grid dimensions have been specified"

/-- The message thrown when only grid dimensions are set. -/
def gridOnlyMsg : String :=
  "Attempt to obtain the composite grid dimensions, while the grid dimensions have only bee specified in terms of blocks, not threads, with no block dimensions specified"

/-- The message thrown when only block dimensions are set. -/
def blockOnlyMsg : String :=
  "Only block dimensions have been specified - cannot resolve launch grid dimensions"

/-- The message thrown by `saturate_with_active_blocks()` without a bound
kernel. -/
def saturateNoKernelMsg : String :=
  "A kernel must be set to determine how many blocks are required to saturate the device"

/-- The message thrown by `saturate_with_active_blocks()` without block
dimensions. -/
def saturateNoBlockMsg : String :=
  "The block dimensions must be known to determine how many of them one needs for saturating a device"

/-- A concrete kernel model used by witnesses: at most 3 active blocks per
multiprocessor for any volume and scratch size. -/
def witnessKernel : KernelModel :=
  { maximumThreadsPerBlock := 1024
    maxActiveBlocksPerMultiprocessor := fun _ _ => 3
    minGridParamsForMaxOccupancyFixed := fun _ => ⟨⟨256, 1, 1⟩, ⟨4, 1, 1⟩⟩
    minGridParamsForMaxOccupancyFn := fun _ => ⟨⟨256, 1, 1⟩, ⟨4, 1, 1⟩⟩
    sharedMemOk := fun _ => true }

/-- A concrete device model used by witnesses: 2 multiprocessors. -/
def witnessDevice : DeviceModel :=
  { maximumThreadsPerBlock := 1024
    multiprocessorCount := 2
    sharedMemOk := fun _ => true }

/-- A builder with a kernel and device bound and block (32,1,1) set. -/
def c3State : LaunchConfigBuilder :=
  { launch_config_builder with
      dimensions_ := ⟨some ⟨32, 1, 1⟩, none, none⟩
      kernel_ := some witnessKernel
      device_ := some witnessDevice }

/-- A builder with block (16,1,1) and grid (3,1,1) set, nothing else. -/
def c5State : LaunchConfigBuilder :=
  { launch_config_builder with
      dimensions_ := ⟨some ⟨16, 1, 1⟩, some ⟨3, 1, 1⟩, none⟩ }

/-- The builder `c5State` after `resolve_dimensions()`. -/
def c7Resolved : LaunchConfigBuilder :=
  { c5State with
      dimensions_ := ⟨some ⟨16, 1, 1⟩, some ⟨3, 1, 1⟩, some ⟨48, 1, 1⟩⟩ }

/-- An options record with fast-math set and the subsumed token `--ftz`
smuggled in verbatim through `extra_options`. -/
def c8CounterOpts : CompilationOptions :=
  { compilationOptionsDefault with
      use_fast_math := true
      extra_options := ["--ftz"] }

/-- An options record with fast-math set together with all four subsumed
toggle fields calling for their tokens. -/
def c8FastOpts : CompilationOptions :=
  { compilationOptionsDefault with
      use_fast_math := true
      flush_denormal_floats_to_zero := true
      use_precise_square_root := false
      use_precise_division := false
      use_fused_multiply_add := false }

/-- An options record with fast-math unset and flush-denormals set. -/
def c8SlowOpts : CompilationOptions :=
  { compilationOptionsDefault with flush_denormal_floats_to_zero := true }

/-! ## Helper lemmas -/

theorem except_ok_bind {ε α β : Type} (a : α) (f : α → Except ε β) :
    (Except.ok a >>= f) = f a := rfl

theorem except_error_bind {ε α β : Type} (e : ε) (f : α → Except ε β) :
    ((Except.error e : Except ε α) >>= f) = .error e := rfl

theorem except_map_ok {ε α β : Type} (a : α) (f : α → β) :
    (f <$> (Except.ok a : Except ε α)) = .ok (f a) := rfl

theorem except_map_error {ε α β : Type} (e : ε) (f : α → β) :
    (f <$> (Except.error e : Except ε α)) = .error e := rfl

theorem except_pure {ε α : Type} (a : α) :
    (pure a : Except ε α) = .ok a := rfl

/-- `build` unfolded, when resolution and validation both succeed. -/
theorem build_of_ok (s : LaunchConfigBuilder) (cd : CompositeDims)
    (h1 : s.get_unvalidated_composite_dimensions = .ok cd)
    (h2 : s.validate_composite_dimensions cd = .ok ()) :
    s.build = .ok
      { block := cd.block
        grid := cd.grid
        dynamic_shared_memory_size := s.get_dynamic_shared_memory_size cd.block
        block_cooperation := s.thread_block_cooperation
        overall := none } := by
  simp [LaunchConfigBuilder.build, LaunchConfigBuilder.get_composite_dimensions,
    h1, h2, except_ok_bind, except_map_ok, except_pure]

/-- `build` unfolded, when resolution fails. -/
theorem build_of_error (s : LaunchConfigBuilder) (e : BuilderError)
    (h : s.get_unvalidated_composite_dimensions = .error e) :
    s.build = .error e := by
  simp [LaunchConfigBuilder.build, LaunchConfigBuilder.get_composite_dimensions,
    h, except_error_bind, except_map_error]

/-- The source's rounding-up division agrees with the spec's wording of
ceiling division. -/
theorem div_rounding_up_eq_ceil_div_spec (d v : Nat) :
    div_rounding_up d v = ceil_div_spec d v := by
  unfold div_rounding_up ceil_div_spec
  rcases Classical.em (v ∣ d) with h | h
  · have hm : v * (d / v) = d := Nat.mul_div_cancel' h
    simp [hm, h]
  · have hm : v * (d / v) ≠ d := fun hc => h ⟨d / v, hc.symm⟩
    simp [beq_iff_eq, hm, h]

/-! ## Claim theorems -/

/-- C1: on a builder with only block dimensions `b` and overall dimensions
`o` set (no grid, no derivation mode, nothing bound), all components
positive, `build()` yields a configuration whose grid on each axis is
`overall[axis] / block[axis]` rounded up by one when the division is
inexact, and whose block is `b` unchanged. -/
theorem build_from_block_and_overall (s : LaunchConfigBuilder) (b o : Dim3)
    (hb : s.dimensions_.block = some b)
    (ho : s.dimensions_.overall = some o)
    (hg : s.dimensions_.grid = none)
    (hsat : s.saturate_with_active_blocks_ = false)
    (hmin : s.use_min_params_for_max_occupancy_ = false)
    (hk : s.kernel_ = none)
    (hd : s.device_ = none)
    (hbx : 1 ≤ b.x) (hby : 1 ≤ b.y) (hbz : 1 ≤ b.z)
    (hox : 1 ≤ o.x) (hoy : 1 ≤ o.y) (hoz : 1 ≤ o.z) :
    s.build = .ok
      { block := b
        grid := ⟨ceil_div_spec o.x b.x, ceil_div_spec o.y b.y, ceil_div_spec o.z b.z⟩
        dynamic_shared_memory_size := s.get_dynamic_shared_memory_size b
        block_cooperation := s.thread_block_cooperation
        overall := none } := by
  simp [LaunchConfigBuilder.build, LaunchConfigBuilder.get_composite_dimensions,
    LaunchConfigBuilder.get_unvalidated_composite_dimensions,
    LaunchConfigBuilder.validate_composite_dimensions,
    LaunchConfigBuilder.validate_block_dimension_compatibility_kernel,
    LaunchConfigBuilder.validate_block_dimension_compatibility_device,
    hb, ho, hg, hsat, hmin, hk, hd, div_rounding_up3,
    div_rounding_up_eq_ceil_div_spec, Except.bind]
  rfl

/-- Witness for C1: block (32,1,1) with overall (100,1,1) resolves to grid
(4,1,1). -/
theorem build_from_block_and_overall_witness :
    ({ launch_config_builder with
        dimensions_ := ⟨some ⟨32, 1, 1⟩, none, some ⟨100, 1, 1⟩⟩ }
      : LaunchConfigBuilder).build = .ok
      { block := ⟨32, 1, 1⟩
        grid := ⟨4, 1, 1⟩
        dynamic_shared_memory_size := 0
        block_cooperation := false
        overall := none } := by
  have h := build_from_block_and_overall
    { launch_config_builder with
        dimensions_ := ⟨some ⟨32, 1, 1⟩, none, some ⟨100, 1, 1⟩⟩ }
    ⟨32, 1, 1⟩ ⟨100, 1, 1⟩ rfl rfl rfl rfl rfl rfl rfl
    (by decide) (by decide) (by decide) (by decide) (by decide) (by decide)
  simpa [ceil_div_spec, LaunchConfigBuilder.get_dynamic_shared_memory_size,
    launch_config_builder] using h

/-- C2: with fewer than two of {block, grid, overall} set and no derivation
mode active, `build()` fails with a logic error; the message is the
block-only one when block is the sole field, the grid-only one when grid is
present, and the neither-block-nor-grid one otherwise (which also covers
the only-overall and nothing-set states); the three messages are pairwise
distinct. -/
theorem build_underdetermined_fails (s : LaunchConfigBuilder)
    (hsat : s.saturate_with_active_blocks_ = false)
    (hmin : s.use_min_params_for_max_occupancy_ = false)
    (hcount : numGeometrySet s < 2) :
    (∃ msg, s.build = .error (.logicError msg))
    ∧ (s.dimensions_.block.isSome → s.build = .error (.logicError blockOnlyMsg))
    ∧ (s.dimensions_.grid.isSome → s.build = .error (.logicError gridOnlyMsg))
    ∧ (s.dimensions_.block = none → s.dimensions_.grid = none →
        s.build = .error (.logicError neitherBlockNorGridMsg))
    ∧ blockOnlyMsg ≠ gridOnlyMsg ∧ blockOnlyMsg ≠ neitherBlockNorGridMsg
    ∧ gridOnlyMsg ≠ neitherBlockNorGridMsg := by
  have hbuild : ∀ msg, s.get_unvalidated_composite_dimensions = .error (.logicError msg) →
      s.build = .error (.logicError msg) := by
    intro msg hmsg
    simp only [LaunchConfigBuilder.build, LaunchConfigBuilder.get_composite_dimensions,
      hmsg]
    rfl
  have hOnlyBlock : s.dimensions_.block.isSome →
      s.build = .error (.logicError blockOnlyMsg) := by
    intro hb
    rcases hblock : s.dimensions_.block with _ | b
    · rw [hblock] at hb; exact absurd hb (by simp)
    rcases hgrid : s.dimensions_.grid with _ | g
    · rcases hoverall : s.dimensions_.overall with _ | o
      · apply hbuild
        simp [LaunchConfigBuilder.get_unvalidated_composite_dimensions,
          hsat, hmin, hblock, hgrid, hoverall, blockOnlyMsg]
      · exfalso
        simp [numGeometrySet, hblock, hgrid, hoverall] at hcount
    · exfalso
      simp [numGeometrySet, hblock, hgrid] at hcount
  have hOnlyGrid : s.dimensions_.grid.isSome →
      s.build = .error (.logicError gridOnlyMsg) := by
    intro hg
    rcases hgrid : s.dimensions_.grid with _ | g
    · rw [hgrid] at hg; exact absurd hg (by simp)
    rcases hblock : s.dimensions_.block with _ | b
    · rcases hoverall : s.dimensions_.overall with _ | o
      · apply hbuild
        simp [LaunchConfigBuilder.get_unvalidated_composite_dimensions,
          hsat, hmin, hblock, hgrid, hoverall, gridOnlyMsg]
      · exfalso
        simp [numGeometrySet, hblock, hgrid, hoverall] at hcount
    · exfalso
      simp [numGeometrySet, hblock, hgrid] at hcount
  have hNeither : s.dimensions_.block = none → s.dimensions_.grid = none →
      s.build = .error (.logicError neitherBlockNorGridMsg) := by
    intro hblock hgrid
    apply hbuild
    simp [LaunchConfigBuilder.get_unvalidated_composite_dimensions,
      hsat, hmin, hblock, hgrid, neitherBlockNorGridMsg]
  refine ⟨?_, hOnlyBlock, hOnlyGrid, hNeither, by decide, by decide, by decide⟩
  rcases hblock : s.dimensions_.block with _ | b
  · rcases hgrid : s.dimensions_.grid with _ | g
    · exact ⟨_, hNeither hblock hgrid⟩
    · exact ⟨_, hOnlyGrid (by rw [hgrid]; rfl)⟩
  · exact ⟨_, hOnlyBlock (by rw [hblock]; rfl)⟩

/-- Witness for C2: a builder with only block dimensions (32,1,1) set fails
with the block-only logic error, and the three messages are distinct. -/
theorem build_underdetermined_fails_witness :
    ({ launch_config_builder with
        dimensions_ := ⟨some ⟨32, 1, 1⟩, none, none⟩ } : LaunchConfigBuilder).build
        = .error (.logicError blockOnlyMsg)
    ∧ blockOnlyMsg ≠ gridOnlyMsg ∧ blockOnlyMsg ≠ neitherBlockNorGridMsg
    ∧ gridOnlyMsg ≠ neitherBlockNorGridMsg := by
  have h := build_underdetermined_fails
    { launch_config_builder with dimensions_ := ⟨some ⟨32, 1, 1⟩, none, none⟩ }
    rfl rfl (by decide)
  exact ⟨h.2.1 rfl, h.2.2.2.2⟩

/-- C3: enabling saturate-with-active-blocks with no bound kernel throws a
logic error; with a kernel but no block dimensions it throws a distinct
logic error; and with both present, enabling it and building yields a
1-D grid of (max concurrently active blocks per multiprocessor, queried at
the block volume and the resolved scratch-memory size) times the device's
multiprocessor count, with the block unchanged.  (The validating build also
re-checks the resolved dimensions against the bound kernel's and device's
limits, whence the three bound hypotheses.) -/
theorem saturate_with_active_blocks_spec :
    (∀ s : LaunchConfigBuilder, s.kernel_ = none →
      s.saturate_with_active_blocks = .error (.logicError saturateNoKernelMsg))
    ∧ (∀ (s : LaunchConfigBuilder) (k : KernelModel), s.kernel_ = some k →
        s.dimensions_.block = none →
        s.saturate_with_active_blocks = .error (.logicError saturateNoBlockMsg))
    ∧ saturateNoKernelMsg ≠ saturateNoBlockMsg
    ∧ (∀ (s s' : LaunchConfigBuilder) (k : KernelModel) (b : Dim3) (d : DeviceModel),
        s.kernel_ = some k → s.dimensions_.block = some b → s.device_ = some d →
        s.saturate_with_active_blocks = .ok s' →
        b.volume ≤ k.maximumThreadsPerBlock →
        b.volume ≤ d.maximumThreadsPerBlock →
        k.maxActiveBlocksPerMultiprocessor b.volume (s.get_dynamic_shared_memory_size b)
            * d.multiprocessorCount ≤ d.maximumThreadsPerBlock →
        s'.build = .ok
          { block := b
            grid := ⟨k.maxActiveBlocksPerMultiprocessor b.volume
                       (s.get_dynamic_shared_memory_size b) * d.multiprocessorCount, 1, 1⟩
            dynamic_shared_memory_size := s.get_dynamic_shared_memory_size b
            block_cooperation := s.thread_block_cooperation
            overall := none }) := by
  refine ⟨?_, ?_, by decide, ?_⟩
  · intro s hk
    simp [LaunchConfigBuilder.saturate_with_active_blocks, hk, saturateNoKernelMsg]
  · intro s k hk hb
    simp [LaunchConfigBuilder.saturate_with_active_blocks, hk, hb, saturateNoBlockMsg]
  · intro s s' k b d hk hb hd hok hbk hbd hgd
    have hs' := hok
    rw [LaunchConfigBuilder.saturate_with_active_blocks] at hs'
    simp [hk, hb, except_pure] at hs'
    have h1 : s'.get_unvalidated_composite_dimensions =
        .ok ⟨b, ⟨k.maxActiveBlocksPerMultiprocessor b.volume
                  (s.get_dynamic_shared_memory_size b) * d.multiprocessorCount, 1, 1⟩⟩ := by
      simp [← hs', LaunchConfigBuilder.get_unvalidated_composite_dimensions, hk, hb, hd,
        LaunchConfigBuilder.get_dynamic_shared_memory_size]
    have hbk' : ¬ (k.maximumThreadsPerBlock < b.x * b.y * b.z) := by
      simpa [Dim3.volume] using Nat.not_lt.mpr hbk
    have hbd' : ¬ (d.maximumThreadsPerBlock < b.x * b.y * b.z) := by
      simpa [Dim3.volume] using Nat.not_lt.mpr hbd
    have hgd' : ¬ (d.maximumThreadsPerBlock <
        k.maxActiveBlocksPerMultiprocessor (b.x * b.y * b.z)
          (s.get_dynamic_shared_memory_size b) * d.multiprocessorCount) := by
      simpa [Dim3.volume] using Nat.not_lt.mpr hgd
    have h2 : s'.validate_composite_dimensions
        ⟨b, ⟨k.maxActiveBlocksPerMultiprocessor b.volume
              (s.get_dynamic_shared_memory_size b) * d.multiprocessorCount, 1, 1⟩⟩ = .ok () := by
      simp [← hs', LaunchConfigBuilder.validate_composite_dimensions,
        LaunchConfigBuilder.validate_block_dimension_compatibility_kernel,
        LaunchConfigBuilder.validate_block_dimension_compatibility_device,
        hk, hd, except_ok_bind, Dim3.volume, hbk', hbd', hgd']
    have hcoop : s'.thread_block_cooperation = s.thread_block_cooperation := by
      rw [← hs']
    have hdshm : s'.get_dynamic_shared_memory_size b = s.get_dynamic_shared_memory_size b := by
      rw [← hs']; rfl
    have h := build_of_ok s' _ h1 h2
    rw [h, hcoop, hdshm]

/-- Inversion for mutators of the validate-then-construct shape. -/
theorem bind_pure_ok_inv {E α β : Type} {v : Except E α} {f : α → β} {b : β}
    (h : (v >>= fun a => pure (f a)) = Except.ok b) : ∃ a, v = .ok a ∧ b = f a := by
  cases v with
  | error e => rw [except_error_bind] at h; cases h
  | ok a =>
    rw [except_ok_bind, except_pure] at h
    cases h
    exact ⟨a, rfl, rfl⟩

/-- Inversion for a successful `saturate_with_active_blocks()`. -/
theorem saturate_ok_inv {s s' : LaunchConfigBuilder}
    (h : s.saturate_with_active_blocks = .ok s') :
    s' = { s with
      dimensions_ := { s.dimensions_ with grid := none, overall := none }
      use_min_params_for_max_occupancy_ := false
      saturate_with_active_blocks_ := true } := by
  rw [LaunchConfigBuilder.saturate_with_active_blocks] at h
  cases hk : s.kernel_.isNone with
  | true => simp [hk] at h
  | false =>
    cases hb : s.dimensions_.block.isNone with
    | true => simp [hk, hb] at h
    | false =>
      simp [hk, hb, except_pure] at h
      exact h.symm

/-- Inversion for a successful `min_params_for_max_occupancy()`. -/
theorem min_params_ok_inv {s s' : LaunchConfigBuilder}
    (h : s.min_params_for_max_occupancy = .ok s') :
    s' = { s with
      dimensions_ := ⟨none, none, none⟩
      use_min_params_for_max_occupancy_ := true
      saturate_with_active_blocks_ := false } := by
  rw [LaunchConfigBuilder.min_params_for_max_occupancy] at h
  cases hk : s.kernel_.isNone with
  | true => simp [hk] at h
  | false =>
    simp [hk, except_pure] at h
    exact h.symm

/-- One mutator call preserves "saturation active implies minimum-occupancy
inactive". -/
theorem applyMutation_flags (s : LaunchConfigBuilder) (m : Mutation)
    (h : s.saturate_with_active_blocks_ = true →
      s.use_min_params_for_max_occupancy_ = false) :
    (applyMutation s m).saturate_with_active_blocks_ = true →
    (applyMutation s m).use_min_params_for_max_occupancy_ = false := by
  have hgen : ∀ (x : Except BuilderError LaunchConfigBuilder),
      (∀ s', x = .ok s' →
        (s'.saturate_with_active_blocks_ = true →
          s'.use_min_params_for_max_occupancy_ = false)) →
      ((x.toOption.getD s).saturate_with_active_blocks_ = true →
        (x.toOption.getD s).use_min_params_for_max_occupancy_ = false) := by
    intro x hx
    cases x with
    | error e => simpa [Except.toOption] using h
    | ok s' => simpa [Except.toOption] using hx s' rfl
  cases m with
  | dimensions cd =>
    refine hgen _ ?_
    intro s' hs'
    rw [LaunchConfigBuilder.dimensions] at hs'
    obtain ⟨a, -, rfl⟩ := bind_pure_ok_inv hs'
    simpa using h
  | blockDimensions d =>
    refine hgen _ ?_
    intro s' hs'
    rw [LaunchConfigBuilder.block_dimensions] at hs'
    obtain ⟨a, -, rfl⟩ := bind_pure_ok_inv hs'
    simpa using h
  | useMaximumLinearBlock =>
    refine hgen _ ?_
    intro s' hs'
    rw [LaunchConfigBuilder.use_maximum_linear_block] at hs'
    cases hk : s.kernel_ with
    | some k =>
      rw [hk] at hs'
      obtain ⟨a, -, rfl⟩ := bind_pure_ok_inv hs'
      simpa using h
    | none =>
      rw [hk] at hs'
      cases hd : s.device_ with
      | some d =>
        rw [hd] at hs'
        obtain ⟨a, -, rfl⟩ := bind_pure_ok_inv hs'
        simpa using h
      | none =>
        rw [hd] at hs'
        obtain ⟨a, ha, rfl⟩ := bind_pure_ok_inv hs'
        cases ha
  | gridDimensions d =>
    refine hgen _ ?_
    intro s' hs'
    rw [LaunchConfigBuilder.grid_dimensions] at hs'
    obtain ⟨a, -, rfl⟩ := bind_pure_ok_inv hs'
    simp
  | overallDimensions d =>
    refine hgen _ ?_
    intro s' hs'
    rw [LaunchConfigBuilder.overall_dimensions] at hs'
    obtain ⟨a, -, rfl⟩ := bind_pure_ok_inv hs'
    simp
  | blockCooperation c => simpa [applyMutation, LaunchConfigBuilder.block_cooperation] using h
  | dynamicSharedMemoryFn f =>
    simpa [applyMutation, LaunchConfigBuilder.dynamic_shared_memory_size_fn] using h
  | dynamicSharedMemoryFixed n =>
    refine hgen _ ?_
    intro s' hs'
    rw [LaunchConfigBuilder.dynamic_shared_memory_size_fixed] at hs'
    obtain ⟨a, -, rfl⟩ := bind_pure_ok_inv hs'
    simpa using h
  | setKernel k =>
    refine hgen _ ?_
    intro s' hs'
    rw [LaunchConfigBuilder.kernel] at hs'
    obtain ⟨a, -, rfl⟩ := bind_pure_ok_inv hs'
    simpa using h
  | saturateWithActiveBlocks =>
    refine hgen _ ?_
    intro s' hs'
    rw [saturate_ok_inv hs']
    simp
  | minParamsForMaxOccupancy =>
    refine hgen _ ?_
    intro s' hs'
    rw [min_params_ok_inv hs']
    simp
  | resolveDimensions =>
    refine hgen _ ?_
    intro s' hs'
    rw [LaunchConfigBuilder.resolve_dimensions] at hs'
    obtain ⟨a, -, rfl⟩ := bind_pure_ok_inv hs'
    simpa using h

/-- C4: after any sequence of public mutator calls on the empty builder, at
most one of the two derivation-mode flags is active; a successful
`saturate_with_active_blocks()` activates saturation only and clears grid
and overall (block is kept); a successful `min_params_for_max_occupancy()`
activates minimum-occupancy only and clears block, grid and overall. -/
theorem derivation_modes_mutually_exclusive :
    (∀ ms : List Mutation,
      ¬ ((applyMutations launch_config_builder ms).saturate_with_active_blocks_ = true
        ∧ (applyMutations launch_config_builder ms).use_min_params_for_max_occupancy_ = true))
    ∧ (∀ s s' : LaunchConfigBuilder, s.saturate_with_active_blocks = .ok s' →
        s'.saturate_with_active_blocks_ = true
        ∧ s'.use_min_params_for_max_occupancy_ = false
        ∧ s'.dimensions_.grid = none ∧ s'.dimensions_.overall = none
        ∧ s'.dimensions_.block = s.dimensions_.block)
    ∧ (∀ s s' : LaunchConfigBuilder, s.min_params_for_max_occupancy = .ok s' →
        s'.use_min_params_for_max_occupancy_ = true
        ∧ s'.saturate_with_active_blocks_ = false
        ∧ s'.dimensions_.block = none ∧ s'.dimensions_.grid = none
        ∧ s'.dimensions_.overall = none) := by
  have main : ∀ (ms : List Mutation) (s : LaunchConfigBuilder),
      (s.saturate_with_active_blocks_ = true →
        s.use_min_params_for_max_occupancy_ = false) →
      ((applyMutations s ms).saturate_with_active_blocks_ = true →
        (applyMutations s ms).use_min_params_for_max_occupancy_ = false) := by
    intro ms
    induction ms with
    | nil => intro s h; exact h
    | cons m rest ih => intro s h; exact ih (applyMutation s m) (applyMutation_flags s m h)
  refine ⟨?_, ?_, ?_⟩
  · intro ms ⟨h1, h2⟩
    have := main ms launch_config_builder (by intro hx; cases hx) h1
    rw [this] at h2
    cases h2
  · intro s s' h
    rw [saturate_ok_inv h]
    simp
  · intro s s' h
    rw [min_params_ok_inv h]
    simp

/-- Witness for C4: on a builder with a kernel bound and block (32,1,1)
set, enabling saturation yields a state with saturation on, the
minimum-occupancy flag off and grid/overall cleared; enabling the
minimum-occupancy mode yields a state with that mode on, saturation off
and block/grid/overall cleared. -/
theorem derivation_modes_mutually_exclusive_witness :
    (∃ s', c3State.saturate_with_active_blocks = .ok s'
      ∧ s'.saturate_with_active_blocks_ = true
      ∧ s'.use_min_params_for_max_occupancy_ = false
      ∧ s'.dimensions_.grid = none ∧ s'.dimensions_.overall = none
      ∧ s'.dimensions_.block = some ⟨32, 1, 1⟩)
    ∧ (∃ s', c3State.min_params_for_max_occupancy = .ok s'
      ∧ s'.use_min_params_for_max_occupancy_ = true
      ∧ s'.saturate_with_active_blocks_ = false
      ∧ s'.dimensions_.block = none ∧ s'.dimensions_.grid = none
      ∧ s'.dimensions_.overall = none) := by
  have h := derivation_modes_mutually_exclusive
  constructor
  · refine ⟨_, rfl, ?_⟩
    have hsat := h.2.1 c3State
      { c3State with
          dimensions_ := ⟨some ⟨32, 1, 1⟩, none, none⟩
          use_min_params_for_max_occupancy_ := false
          saturate_with_active_blocks_ := true } rfl
    exact ⟨hsat.1, hsat.2.1, hsat.2.2.1, hsat.2.2.2.1, hsat.2.2.2.2⟩
  · refine ⟨_, rfl, ?_⟩
    exact h.2.2 c3State
      { c3State with
          dimensions_ := ⟨none, none, none⟩
          use_min_params_for_max_occupancy_ := true
          saturate_with_active_blocks_ := false } rfl

/-- Witness for C3: no kernel → first error; kernel but no block → second
error; kernel, block (32,1,1) and a 2-multiprocessor device → after
saturation, build yields grid (3·2,1,1) = (6,1,1) with block unchanged. -/
theorem saturate_with_active_blocks_spec_witness :
    ({ launch_config_builder with device_ := some witnessDevice }
        : LaunchConfigBuilder).saturate_with_active_blocks
      = .error (.logicError saturateNoKernelMsg)
    ∧ ({ launch_config_builder with kernel_ := some witnessKernel }
        : LaunchConfigBuilder).saturate_with_active_blocks
      = .error (.logicError saturateNoBlockMsg)
    ∧ (∃ s', c3State.saturate_with_active_blocks = .ok s'
        ∧ s'.build = .ok
            { block := ⟨32, 1, 1⟩
              grid := ⟨6, 1, 1⟩
              dynamic_shared_memory_size := 0
              block_cooperation := false
              overall := none }) := by
  have h := saturate_with_active_blocks_spec
  refine ⟨h.1 _ rfl, h.2.1 _ witnessKernel rfl rfl, ?_⟩
  refine ⟨{ c3State with
      dimensions_ := ⟨some ⟨32, 1, 1⟩, none, none⟩
      use_min_params_for_max_occupancy_ := false
      saturate_with_active_blocks_ := true }, rfl, ?_⟩
  have hb := h.2.2.2 c3State _ witnessKernel ⟨32, 1, 1⟩ witnessDevice
    rfl rfl rfl rfl (by decide) (by decide) (by decide)
  simpa [witnessKernel, witnessDevice, c3State, launch_config_builder,
    LaunchConfigBuilder.get_dynamic_shared_memory_size, Dim3.volume] using hb

/-- C5: when block and grid are both already set, `overall_dimensions(o)`
succeeds exactly when `grid * block = o` axis-wise — a consistent value is
stored (and saturation mode left), while an inconsistent one makes the
mutator itself throw `std::invalid_argument`. -/
theorem overall_dimensions_consistency (s : LaunchConfigBuilder) (b g o : Dim3)
    (hb : s.dimensions_.block = some b) (hg : s.dimensions_.grid = some g) :
    (g * b = o →
      s.overall_dimensions o = .ok
        { s with
            dimensions_ := { s.dimensions_ with overall := some o }
            saturate_with_active_blocks_ := false })
    ∧ (g * b ≠ o →
      s.overall_dimensions o = .error (.invalidArgument
        "specified overall dimensions conflict with the already-specified block and grid dimensions")) := by
  constructor
  · intro he
    simp [LaunchConfigBuilder.overall_dimensions,
      LaunchConfigBuilder.validate_overall_dimensions, hb, hg, he,
      except_ok_bind, except_pure]
  · intro hne
    simp [LaunchConfigBuilder.overall_dimensions,
      LaunchConfigBuilder.validate_overall_dimensions, hb, hg, hne,
      except_error_bind]

/-- Witness for C5: with block (16,1,1) and grid (3,1,1), overall (48,1,1)
is accepted and stored while overall (50,1,1) is rejected with
`std::invalid_argument`. -/
theorem overall_dimensions_consistency_witness :
    c5State.overall_dimensions ⟨48, 1, 1⟩ = .ok
      { c5State with
          dimensions_ := ⟨some ⟨16, 1, 1⟩, some ⟨3, 1, 1⟩, some ⟨48, 1, 1⟩⟩
          saturate_with_active_blocks_ := false }
    ∧ c5State.overall_dimensions ⟨50, 1, 1⟩ = .error (.invalidArgument
        "specified overall dimensions conflict with the already-specified block and grid dimensions") := by
  have h48 := (overall_dimensions_consistency c5State ⟨16, 1, 1⟩ ⟨3, 1, 1⟩ ⟨48, 1, 1⟩
    rfl rfl).1 (by decide)
  have h50 := (overall_dimensions_consistency c5State ⟨16, 1, 1⟩ ⟨3, 1, 1⟩ ⟨50, 1, 1⟩
    rfl rfl).2 (by decide)
  exact ⟨h48, h50⟩

/-- C6: the fixed scratch byte count and the sizing function are never both
in effect — setting the fixed count nulls the sizing function, installing a
sizing function makes it the one that is consulted; in particular, after
fixing 128 bytes and then installing a function `f`, any successful
`build()` computes the scratch size as `f` applied to the resolved block
volume, so the stale 128 is never used. -/
theorem scratch_memory_exclusive :
    (∀ (s s' : LaunchConfigBuilder) (n : Nat),
      s.dynamic_shared_memory_size_fixed n = .ok s' →
      s'.dynamic_shared_memory_size_determiner_ = none
      ∧ s'.dynamic_shared_memory_size_ = n)
    ∧ (∀ (s : LaunchConfigBuilder) (f : Nat → Nat),
      (s.dynamic_shared_memory_size_fn f).dynamic_shared_memory_size_determiner_ = some f)
    ∧ (∀ (s s₁ : LaunchConfigBuilder) (f : Nat → Nat) (cfg : LaunchConfiguration),
      s.dynamic_shared_memory_size_fixed 128 = .ok s₁ →
      (s₁.dynamic_shared_memory_size_fn f).build = .ok cfg →
      cfg.dynamic_shared_memory_size = f cfg.block.volume) := by
  have hbuild_shmem : ∀ (t : LaunchConfigBuilder) (f : Nat → Nat) (cfg : LaunchConfiguration),
      t.dynamic_shared_memory_size_determiner_ = some f →
      t.build = .ok cfg →
      cfg.dynamic_shared_memory_size = f cfg.block.volume := by
    intro t f cfg hdet hb
    rw [LaunchConfigBuilder.build] at hb
    obtain ⟨cd, -, rfl⟩ := bind_pure_ok_inv hb
    simp [LaunchConfigBuilder.get_dynamic_shared_memory_size, hdet]
  refine ⟨?_, ?_, ?_⟩
  · intro s s' n h
    rw [LaunchConfigBuilder.dynamic_shared_memory_size_fixed] at h
    obtain ⟨a, -, rfl⟩ := bind_pure_ok_inv h
    exact ⟨rfl, rfl⟩
  · intro s f; rfl
  · intro s s₁ f cfg h1 h2
    exact hbuild_shmem _ f cfg rfl h2

/-- Witness for C6: on a builder with block (16,1,1) and grid (3,1,1),
fixing 128 bytes and then installing the function `v ↦ v + 7` makes
`build()` report 16 + 7 = 23 scratch bytes, not 128. -/
theorem scratch_memory_exclusive_witness :
    (∃ s₁, c5State.dynamic_shared_memory_size_fixed 128 = .ok s₁
      ∧ s₁.dynamic_shared_memory_size_determiner_ = none
      ∧ s₁.dynamic_shared_memory_size_ = 128
      ∧ ∃ cfg, (s₁.dynamic_shared_memory_size_fn (fun v => v + 7)).build = .ok cfg
          ∧ cfg.dynamic_shared_memory_size = (fun v => v + 7) cfg.block.volume
          ∧ cfg.dynamic_shared_memory_size = 23) := by
  have h := scratch_memory_exclusive
  refine ⟨{ c5State with
      dynamic_shared_memory_size_ := 128
      dynamic_shared_memory_size_determiner_ := none }, rfl, ?_, ?_, ?_⟩
  · exact (h.1 c5State _ 128 rfl).1
  · exact (h.1 c5State _ 128 rfl).2
  · refine ⟨{ block := ⟨16, 1, 1⟩, grid := ⟨3, 1, 1⟩, dynamic_shared_memory_size := 23
              block_cooperation := false, overall := none }, rfl, ?_, rfl⟩
    exact h.2.2 c5State _ (fun v => v + 7) _ rfl rfl

/-- C7 counterexample: with block (16,1,1) and grid (3,1,1) set and no
overall supplied, `build()` succeeds but the descriptor it returns carries
no overall dimensions at all — its `overall` component is `none`, not the
claimed (48,1,1). -/
theorem build_descriptor_overall_counterexample :
    c5State.build = .ok
      { block := ⟨16, 1, 1⟩
        grid := ⟨3, 1, 1⟩
        dynamic_shared_memory_size := 0
        block_cooperation := false
        overall := none }
    ∧ (none : Option Dim3) ≠ some ⟨48, 1, 1⟩ := ⟨rfl, by decide⟩

/-- C7 (amended): it is `resolve_dimensions()`, not `build()`, that fills
in the overall dimensions: after a successful `resolve_dimensions()` on a
builder whose overall was unset, the builder's overall equals
`grid * block` axis-wise; `build()` packages only block, grid, scratch
size and cooperation flag, leaving the descriptor's overall unset. -/
theorem resolve_dimensions_fills_overall (s s' : LaunchConfigBuilder)
    (ho : s.dimensions_.overall = none)
    (h : s.resolve_dimensions = .ok s') :
    (∃ cd, s.get_composite_dimensions = .ok cd
      ∧ s'.dimensions_.block = some cd.block
      ∧ s'.dimensions_.grid = some cd.grid
      ∧ s'.dimensions_.overall = some (cd.grid * cd.block))
    ∧ (∀ cfg, s.build = .ok cfg → cfg.overall = none) := by
  constructor
  · rw [LaunchConfigBuilder.resolve_dimensions] at h
    obtain ⟨cd, hcd, rfl⟩ := bind_pure_ok_inv h
    exact ⟨cd, hcd, rfl, rfl, by simp [ho]⟩
  · intro cfg hb
    rw [LaunchConfigBuilder.build] at hb
    obtain ⟨cd, -, rfl⟩ := bind_pure_ok_inv hb
    rfl

/-- Witness for C7 (amended): block (16,1,1) with grid (3,1,1) resolves,
via `resolve_dimensions()`, to overall (48,1,1) in the builder, while the
descriptor built from the same state has no overall. -/
theorem resolve_dimensions_fills_overall_witness :
    c7Resolved.dimensions_.overall = some ⟨48, 1, 1⟩
    ∧ (∀ cfg, c5State.build = .ok cfg → cfg.overall = none) := by
  have h := resolve_dimensions_fills_overall c5State c7Resolved rfl rfl
  refine ⟨?_, h.2⟩
  obtain ⟨⟨cd, hcd, -, -, hov⟩, -⟩ := h
  have hcd0 : (Except.ok ⟨⟨16, 1, 1⟩, ⟨3, 1, 1⟩⟩ : Except BuilderError CompositeDims)
      = .ok cd := by
    rw [← hcd]; rfl
  cases hcd0
  simpa [Dim3.mul] using hov

/-- Membership in the token list of a single boolean toggle. -/
theorem mem_optIf {x token : String} {c : Bool} :
    x ∈ optIf c token ↔ (c = true ∧ x = token) := by
  cases c <;> simp [optIf]

/-- A string extending `p` cannot equal a string `t` that `p` is not a
prefix of. -/
theorem string_append_ne {p s t : String} (h : ¬ p.data <+: t.data) :
    p ++ s ≠ t := by
  intro he
  apply h
  rw [← he, String.data_append]
  exact List.prefix_append _ _

/-- A token `t` is never produced by a map whose results all extend a
string `p` that is not a prefix of `t`. -/
theorem not_mem_map_of_prefix {α : Type} {g : α → String} {p t : String} (l : List α)
    (hg : ∀ a, ∃ s, g a = p ++ s) (hp : ¬ p.data <+: t.data) :
    t ∉ l.map g := by
  intro hmem
  obtain ⟨a, -, ha⟩ := List.mem_map.mp hmem
  obtain ⟨s, hs⟩ := hg a
  exact string_append_ne hp (hs.symm.trans ha)

/-- For a token none of the emitted prefixes can produce, membership in the
post-fast-math segment reduces to membership in `extra_options`. -/
theorem mem_remaining_iff_extra (opts : CompilationOptions) (t : String)
    (hdopt : t ≠ "--dopt=on")
    (hptxas : ¬ "--ptxas-options=".data <+: t.data)
    (hstd : ¬ "--std=".data <+: t.data)
    (hmax : ¬ "--maxrregcount".data <+: t.data)
    (harch : ¬ "--gpu-architecture=sm_".data <+: t.data)
    (hU : ¬ "-U".data <+: t.data)
    (hD : ¬ "-D".data <+: t.data)
    (hinc : ¬ "--include-path=".data <+: t.data)
    (hpre : ¬ "--pre-include=".data <+: t.data)
    (hdiag : ¬ "--diag-".data <+: t.data) :
    (t ∈ remaining_option_tokens opts ↔ t ∈ opts.extra_options) := by
  have h1 : t ∉ optIf opts.optimize_device_code_in_debug_mode "--dopt=on" := by
    simp [mem_optIf, hdopt]
  have h2 : t ∉ optIf (!decide (opts.ptxas = "")) ("--ptxas-options=" ++ opts.ptxas) := by
    simp only [mem_optIf, not_and]
    intro _ he
    exact string_append_ne hptxas he.symm
  have h3 : t ∉ optIf opts.specify_language_dialect
      ("--std=" ++ cpp_dialect_names opts.language_dialect) := by
    simp only [mem_optIf, not_and]
    intro _ he
    exact string_append_ne hstd he.symm
  have h4 : t ∉ (match opts.maximum_register_count with
      | some n => ["--maxrregcount" ++ toString n]
      | none => ([] : List String)) := by
    cases hmrc : opts.maximum_register_count with
    | none => simp
    | some n =>
      simp only [List.mem_singleton]
      intro he
      exact string_append_ne hmax he.symm
  have h5 : t ∉ opts.targets_.map (fun target => "--gpu-architecture=sm_" ++ toString target) :=
    not_mem_map_of_prefix _ (fun a => ⟨toString a, rfl⟩) harch
  have h6 : t ∉ opts.undefines.map (fun d => "-U" ++ d) :=
    not_mem_map_of_prefix _ (fun a => ⟨a, rfl⟩) hU
  have h7 : t ∉ opts.no_value_defines.map (fun d => "-D" ++ d) :=
    not_mem_map_of_prefix _ (fun a => ⟨a, rfl⟩) hD
  have h8 : t ∉ opts.valued_defines.map (fun d => "-D" ++ d.1 ++ "=" ++ d.2) :=
    not_mem_map_of_prefix _
      (fun a => ⟨a.1 ++ ("=" ++ a.2), by rw [String.append_assoc, String.append_assoc]⟩) hD
  have h9 : t ∉ opts.additional_include_paths.map (fun path => "--include-path=" ++ path) :=
    not_mem_map_of_prefix _ (fun a => ⟨a, rfl⟩) hinc
  have h10 : t ∉ opts.preinclude_files.map (fun f => "--pre-include=" ++ f) :=
    not_mem_map_of_prefix _ (fun a => ⟨a, rfl⟩) hpre
  have h11 : t ∉ opts.error_handling_overrides.map
      (fun ov => "--diag-" ++ option_name_part ov.2 ++ "=" ++ toString ov.1) :=
    not_mem_map_of_prefix _
      (fun a => ⟨option_name_part a.2 ++ ("=" ++ toString a.1),
        by rw [String.append_assoc, String.append_assoc]⟩) hdiag
  simp [remaining_option_tokens, List.mem_append, h1, h2, h3, h4, h5, h6, h7, h8,
    h9, h10, h11]

/-- C8 counterexample: with fast-math set and the token `--ftz` supplied
verbatim in `extra_options`, the marshalled sequence contains both
`--use_fast_math` and the subsumed toggle token `--ftz` — so the claim
that no subsumed token ever appears when fast-math is set fails as
stated. -/
theorem fast_math_counterexample :
    c8CounterOpts.use_fast_math = true
    ∧ "--use_fast_math" ∈ process c8CounterOpts
    ∧ "--ftz" ∈ process c8CounterOpts := by
  refine ⟨rfl, ?_, ?_⟩ <;> decide

/-- C8 (amended): provided none of the four subsumed toggle tokens is
smuggled in verbatim through `extra_options`: when fast-math is set the
sequence contains `--use_fast_math` and none of `--ftz`,
`--prec-sqrt=false`, `--prec-div=false`, `--fmad=false`, regardless of the
four subsumed fields; when fast-math is unset, each subsumed token appears
exactly when its own field calls for it. -/
theorem fast_math_mutual_exclusion (opts : CompilationOptions)
    (hx1 : "--ftz" ∉ opts.extra_options)
    (hx2 : "--prec-sqrt=false" ∉ opts.extra_options)
    (hx3 : "--prec-div=false" ∉ opts.extra_options)
    (hx4 : "--fmad=false" ∉ opts.extra_options) :
    (opts.use_fast_math = true →
      "--use_fast_math" ∈ process opts
      ∧ "--ftz" ∉ process opts ∧ "--prec-sqrt=false" ∉ process opts
      ∧ "--prec-div=false" ∉ process opts ∧ "--fmad=false" ∉ process opts)
    ∧ (opts.use_fast_math = false →
      (("--ftz" ∈ process opts) ↔ opts.flush_denormal_floats_to_zero = true)
      ∧ (("--prec-sqrt=false" ∈ process opts) ↔ opts.use_precise_square_root = false)
      ∧ (("--prec-div=false" ∈ process opts) ↔ opts.use_precise_division = false)
      ∧ (("--fmad=false" ∈ process opts) ↔ opts.use_fused_multiply_add = false)) := by
  have hr1 := mem_remaining_iff_extra opts "--ftz" (by decide) (by decide) (by decide)
    (by decide) (by decide) (by decide) (by decide) (by decide) (by decide) (by decide)
  have hr2 := mem_remaining_iff_extra opts "--prec-sqrt=false" (by decide) (by decide)
    (by decide) (by decide) (by decide) (by decide) (by decide) (by decide) (by decide)
    (by decide)
  have hr3 := mem_remaining_iff_extra opts "--prec-div=false" (by decide) (by decide)
    (by decide) (by decide) (by decide) (by decide) (by decide) (by decide) (by decide)
    (by decide)
  have hr4 := mem_remaining_iff_extra opts "--fmad=false" (by decide) (by decide)
    (by decide) (by decide) (by decide) (by decide) (by decide) (by decide) (by decide)
    (by decide)
  have hs1 : "--ftz" ∉ simple_toggle_tokens opts := by
    simp [simple_toggle_tokens, mem_optIf]
  have hs2 : "--prec-sqrt=false" ∉ simple_toggle_tokens opts := by
    simp [simple_toggle_tokens, mem_optIf]
  have hs3 : "--prec-div=false" ∉ simple_toggle_tokens opts := by
    simp [simple_toggle_tokens, mem_optIf]
  have hs4 : "--fmad=false" ∉ simple_toggle_tokens opts := by
    simp [simple_toggle_tokens, mem_optIf]
  constructor
  · intro hfast
    refine ⟨?_, ?_, ?_, ?_, ?_⟩
    · simp [process, fast_math_tokens, hfast]
    · simp [process, fast_math_tokens, hfast, hs1, hr1, hx1]
    · simp [process, fast_math_tokens, hfast, hs2, hr2, hx2]
    · simp [process, fast_math_tokens, hfast, hs3, hr3, hx3]
    · simp [process, fast_math_tokens, hfast, hs4, hr4, hx4]
  · intro hfast
    refine ⟨?_, ?_, ?_, ?_⟩
    · simp [process, fast_math_tokens, hfast, mem_optIf, hs1, hr1, hx1]
    · simp [process, fast_math_tokens, hfast, mem_optIf, hs2, hr2, hx2]
    · simp [process, fast_math_tokens, hfast, mem_optIf, hs3, hr3, hx3]
    · simp [process, fast_math_tokens, hfast, mem_optIf, hs4, hr4, hx4]

/-- Witness for C8 (amended): with fast-math set and every subsumed field
calling for its token, only `--use_fast_math` appears; with fast-math
unset and flush-denormals set, `--ftz` appears. -/
theorem fast_math_mutual_exclusion_witness :
    ("--use_fast_math" ∈ process c8FastOpts
      ∧ "--ftz" ∉ process c8FastOpts
      ∧ "--prec-sqrt=false" ∉ process c8FastOpts
      ∧ "--prec-div=false" ∉ process c8FastOpts
      ∧ "--fmad=false" ∉ process c8FastOpts)
    ∧ "--ftz" ∈ process c8SlowOpts := by
  constructor
  · exact (fast_math_mutual_exclusion c8FastOpts
      (by decide) (by decide) (by decide) (by decide)).1 rfl
  · exact ((fast_math_mutual_exclusion c8SlowOpts
      (by decide) (by decide) (by decide) (by decide)).2 rfl).1.mpr rfl

/-- C9: looking up any non-empty dialect name other than "c++03", "c++11",
"c++14", "c++17" fails with `std::invalid_argument` naming the dialect;
each of the four known names yields its dialect value; and
`set_language_dialect` on a non-empty name is exactly this lookup followed
by the (total) dialect setter, so the lookup is the component's only error
path. -/
theorem cpp_dialect_lookup_spec :
    (∀ name : String, name ≠ "" →
      name ∉ ["c++03", "c++11", "c++14", "c++17"] →
      cpp_dialect_from_name name =
        .error (.invalidArgument ("No C++ dialect named \"" ++ name ++ "\"")))
    ∧ cpp_dialect_from_name "c++03" = .ok .cpp03
    ∧ cpp_dialect_from_name "c++11" = .ok .cpp11
    ∧ cpp_dialect_from_name "c++14" = .ok .cpp14
    ∧ cpp_dialect_from_name "c++17" = .ok .cpp17
    ∧ (∀ (opts : CompilationOptions) (name : String), name ≠ "" →
        opts.set_language_dialect name =
          (cpp_dialect_from_name name).map opts.set_language_dialect_value) := by
  refine ⟨?_, rfl, rfl, rfl, rfl, ?_⟩
  · intro name hne hmem
    simp only [List.mem_cons, List.not_mem_nil, or_false, not_or] at hmem
    obtain ⟨h03, h11, h14, h17⟩ := hmem
    simp [cpp_dialect_from_name, cpp_dialect_names, h03, h11, h14, h17]
  · intro opts name hne
    cases h : cpp_dialect_from_name name with
    | error e =>
      simp [CompilationOptions.set_language_dialect, hne, h, except_error_bind, Except.map]
    | ok d =>
      simp [CompilationOptions.set_language_dialect, hne, h, except_ok_bind,
        except_pure, Except.map]

/-- Witness for C9: "c++20" is rejected with the message naming it, while
"c++17" resolves to the C++17 dialect value. -/
theorem cpp_dialect_lookup_spec_witness :
    cpp_dialect_from_name "c++20" =
      .error (.invalidArgument "No C++ dialect named \"c++20\"")
    ∧ cpp_dialect_from_name "c++17" = .ok .cpp17 := by
  have h := cpp_dialect_lookup_spec
  refine ⟨?_, h.2.2.2.2.1⟩
  have h20 := h.1 "c++20" (by decide) (by decide)
  simpa using h20

/-- C10: `add_target(c)` clears the previously specified targets before
inserting `c` (despite its documentation), and `set_target` does the same;
hence after any non-empty sequence of such calls the target set holds
exactly one compute capability — the argument of the most recent call. -/
theorem targets_single_element :
    (∀ (opts : CompilationOptions) (c : Nat),
      (opts.add_target c).targets_ = [c] ∧ (opts.set_target c).targets_ = [c])
    ∧ (∀ (opts : CompilationOptions) (cs : List TargetCall) (c : TargetCall),
      (applyTargetCalls opts (cs ++ [c])).targets_ = [c.capability]) := by
  constructor
  · intro opts c; exact ⟨rfl, rfl⟩
  · intro opts cs c
    rw [applyTargetCalls, List.foldl_append]
    cases c <;> rfl
